import Mathlib

/-!
Verification of the GPAI classification pipeline (`src/streamlit_app.py`).

The Streamlit script is a single top-to-bottom questionnaire.  We embed it
shallowly: each radio/text widget becomes a field of an input structure, each
`st.stop()` becomes an early `none` of an `Option`, and the derived values
(`score`, `classification`, `systemic_classification`, the MCDA averages and
`overall_score`, the `all_data` export dictionary) become Lean functions of
those inputs.  The MCDA arithmetic is embedded twice: as exact rational
arithmetic over `ℚ` (the intended semantics the surrounding gates are stated
against), and — for the Step 3a boundary, where the two differ — as the
program's actual IEEE-754 binary64 evaluation, via an explicit
round-to-nearest-ties-to-even model (`fl`).
-/

namespace GPAI

/-- A three-way detailed-assessment option scoring 2 / 1 / 0 points
(`Yes`/`Partly`/`No`, `Multi-modal`/`Single-flexible`/`Single-specialized`,
`Yes`/`Partial`/`No`). -/
inductive Opt3 where
  | high
  | mid
  | low
deriving DecidableEq, Repr

/-- Points contributed by a three-way option (`{"Yes": 2, "Partly": 1, "No": 0}`
and the analogous dictionaries in `detailed_questions`). -/
def Opt3.points : Opt3 → Nat
  | .high => 2
  | .mid => 1
  | .low => 0

/-- Points contributed by a binary option (`{"Yes": 2, "No": 0}`). -/
def binPoints (b : Bool) : Nat :=
  if b then 2 else 0

/-- The label string of a Yes/No radio answer. -/
def ynLabel (b : Bool) : String :=
  if b then "Yes" else "No"

/-- Label of a `Yes`/`Partly`/`No` option (questions `training`, `tasks`,
`generative` in `detailed_questions`). -/
def trainingLabel : Opt3 → String
  | .high => "Yes"
  | .mid => "Partly"
  | .low => "No"

/-- Label of the `modality` question's options. -/
def modalityLabel : Opt3 → String
  | .high => "Multi-modal"
  | .mid => "Single-flexible"
  | .low => "Single-specialized"

/-- Label of the `use_cases` question's options (`Yes`/`Partial`/`No`). -/
def useCasesLabel : Opt3 → String
  | .high => "Yes"
  | .mid => "Partial"
  | .low => "No"

/-- Step 2 provider determination: the `developed_internally` radio. -/
inductive Origin where
  | internal
  | thirdParty
deriving DecidableEq, Repr

/-- Step 3 pre-screening answers (`pre_answers`), `true` = "Yes". -/
structure PreAnswers where
  params_below : Bool
  trained_specialized : Bool
  single_task : Bool
  adaptability : Bool
deriving DecidableEq, Repr

/-- The Step 3 elimination condition (lines 100–104 of the source):
`(params_below == "Yes" and trained_specialized == "Yes") or single_task ==
"Yes" or adaptability == "Yes"`. -/
def eliminated (p : PreAnswers) : Bool :=
  (p.params_below && p.trained_specialized) || p.single_task || p.adaptability

/-- Step 4 detailed-assessment answers (`answers`), one field per key of
`detailed_questions`. -/
structure DetailedAnswers where
  params : Bool
  training : Opt3
  tasks : Opt3
  generative : Opt3
  modality : Opt3
  integration : Bool
  use_cases : Opt3
deriving DecidableEq, Repr

/-- The running `score` accumulated over the seven detailed questions
(`score += scoring[answers[key]]`). -/
def detailedScore (d : DetailedAnswers) : Nat :=
  binPoints d.params + d.training.points + d.tasks.points + d.generative.points +
    d.modality.points + binPoints d.integration + d.use_cases.points

/-- The borderline radio of Step 4 (`["GPAI", "Not GPAI"]`). -/
inductive ManualGPAI where
  | gpai
  | notGpai
deriving DecidableEq, Repr

/-- Label string of the borderline manual decision. -/
def ManualGPAI.label : ManualGPAI → String
  | .gpai => "GPAI"
  | .notGpai => "Not GPAI"

/-- Finalizing a borderline Step 4 outcome: the classification is the manual
radio value; the rationale text area is read but never inspected. -/
def finalizeBorderline (decision : ManualGPAI) (rationale : String) : String :=
  decision.label

/-- The Step 4 `classification` (lines 349–360): `score >= 10` → `"GPAI"`,
`score >= 6` → the borderline manual decision, else `"Not GPAI"`. -/
def detailedClassification (score : Nat) (decision : ManualGPAI)
    (rationale : String) : String :=
  if 10 ≤ score then "GPAI"
  else if 6 ≤ score then finalizeBorderline decision rationale
  else "Not GPAI"

/-- Step 5 systemic-risk answers (`sys_risk_answers`), `true` = "Yes". -/
structure SysRiskAnswers where
  flops : Bool
  state_of_art : Bool
  scalability : Bool
  scaffolding : Bool
deriving DecidableEq, Repr

/-- The `final_sys_decision` radio of the borderline systemic branch. -/
inductive SysDecision where
  | withRisk
  | withoutRisk
deriving DecidableEq, Repr

/-- Label string of the manual systemic-risk decision. -/
def SysDecision.label : SysDecision → String
  | .withRisk => "GPAI with systemic risk"
  | .withoutRisk => "GPAI without systemic risk"

/-- The Step 5 `systemic_classification` (lines 381–393): hard trigger on
`flops or state_of_art`; otherwise `scalability or scaffolding` defers to the
manual `final_decision` (the rationale text area is read but never inspected);
otherwise "GPAI without systemic risk". -/
def systemic_classification (s : SysRiskAnswers) (final_decision : SysDecision)
    (sys_rationale : String) : String :=
  if s.flops || s.state_of_art then "GPAI with systemic risk"
  else if s.scalability || s.scaffolding then final_decision.label
  else "GPAI without systemic risk"

/-- A 1–5 MCDA subcriterion rating, stored as `Fin 5` (rating = index + 1). -/
def rate (r : Fin 5) : ℚ :=
  (r.val : ℚ) + 1

/-- Step 3a MCDA subcriterion ratings, one field per radio key of the five
criterion-group dictionaries. -/
structure ModAnswers where
  new_use_case : Fin 5
  stakeholder_variation : Fin 5
  regulatory_regime_shift : Fin 5
  nature_of_change : Fin 5
  impact_on_model_structure : Fin 5
  data_volume_adjustment : Fin 5
  data_diversity : Fin 5
  data_quality : Fin 5
  retraining_impact : Fin 5
  quantitative_performance : Fin 5
  qualitative_risk : Fin 5
  adversarial_testing : Fin 5
  integration_context : Fin 5
  end_user_experience : Fin 5
  regulatory_compliance : Fin 5
deriving DecidableEq, Repr

/-- `intended_purpose_avg`: mean of the three Intended Purpose subcriteria. -/
def intended_purpose_avg (m : ModAnswers) : ℚ :=
  (rate m.new_use_case + rate m.stakeholder_variation +
    rate m.regulatory_regime_shift) / 3

/-- `architectural_avg`: mean of the two Architectural/Algorithmic subcriteria. -/
def architectural_avg (m : ModAnswers) : ℚ :=
  (rate m.nature_of_change + rate m.impact_on_model_structure) / 2

/-- `data_avg`: mean of the four Data/Training subcriteria. -/
def data_avg (m : ModAnswers) : ℚ :=
  (rate m.data_volume_adjustment + rate m.data_diversity + rate m.data_quality +
    rate m.retraining_impact) / 4

/-- `performance_avg`: mean of the three Performance/Risk subcriteria. -/
def performance_avg (m : ModAnswers) : ℚ :=
  (rate m.quantitative_performance + rate m.qualitative_risk +
    rate m.adversarial_testing) / 3

/-- `future_deployment_avg`: mean of the three Future Deployment subcriteria. -/
def future_deployment_avg (m : ModAnswers) : ℚ :=
  (rate m.integration_context + rate m.end_user_experience +
    rate m.regulatory_compliance) / 3

/-- `overall_score` (lines 276–280): weighted sum of the five group averages
with weights 0.30 / 0.25 / 0.20 / 0.15 / 0.10. -/
def overall_score (m : ModAnswers) : ℚ :=
  (3 / 10) * intended_purpose_avg m + (1 / 4) * architectural_avg m +
    (1 / 5) * data_avg m + (3 / 20) * performance_avg m +
    (1 / 10) * future_deployment_avg m

/-- Outcome of the Step 3a gate (line 284): `overall_score <= 3.5` stops the
run ("Minor modifications only"), otherwise the assessment continues. -/
inductive ModOutcome where
  | minorHalt
  | substantialContinue
deriving DecidableEq, Repr

/-- The Step 3a branch: halt on `overall_score <= 3.5`, continue otherwise. -/
def modOutcome (m : ModAnswers) : ModOutcome :=
  if overall_score m ≤ 7 / 2 then ModOutcome.minorHalt
  else ModOutcome.substantialContinue

/-- The modification is substantial exactly when the Step 3a gate does not
halt, i.e. when `overall_score > 3.5`. -/
def substantial (m : ModAnswers) : Bool :=
  decide ((7 : ℚ) / 2 < overall_score m)

/-- The stages of the script, in source order: Step 1 exclusion check, Step 2
provider gate, Step 3 pre-screening, Step 3a modification assessment, Step 4
detailed assessment, Step 5 systemic risk, and the final export section. -/
inductive Stage where
  | exclusionCheck
  | providerGate
  | preScreening
  | modAssessment
  | detailedAssessment
  | systemicRisk
  | finalExport
deriving DecidableEq, Repr

/-- All widget inputs of one run of the script.  Radio widgets always carry a
value (Streamlit defaults to the first option), so every field is total; text
areas are `String`s that may be empty. -/
structure Inputs where
  auto_exclude : Bool
  origin : Origin
  thirdparty_modified : Bool
  pre : PreAnswers
  mod : ModAnswers
  detailed : DetailedAnswers
  borderline : ManualGPAI
  manual_rationale : String
  sys : SysRiskAnswers
  final_sys_decision : SysDecision
  sys_rationale : String
  model_name : String
  model_owner : String
deriving DecidableEq, Repr

/-- Whether the Step 3a block runs at all (line 111): third-party origin and
`thirdparty_modified == "Yes"`. -/
def modPerformed (i : Inputs) : Bool :=
  decide (i.origin = Origin.thirdParty) && i.thirdparty_modified

/-- The final Step 4 `classification` of a run. -/
def finalClassification (i : Inputs) : String :=
  detailedClassification (detailedScore i.detailed) i.borderline i.manual_rationale

/-- The stages of the run after pre-screening and modification assessment have
both passed: Step 4, then Step 5 only when the classification is "GPAI", then
the final export section. -/
def tailStages (i : Inputs) : List Stage :=
  Stage.detailedAssessment ::
    ((if finalClassification i = "GPAI" then [Stage.systemicRisk] else []) ++
      [Stage.finalExport])

/-- The sequence of stages a run executes, in the order the script executes
them: each `st.stop()` cuts the rest of the script off.  Note that Step 3
(pre-screening) textually precedes Step 3a (modification assessment). -/
def pipelineTrace (i : Inputs) : List Stage :=
  Stage.exclusionCheck ::
    (if i.auto_exclude then [] else
      Stage.providerGate ::
        (if i.origin = Origin.thirdParty ∧ i.thirdparty_modified = false then [] else
          Stage.preScreening ::
            (if eliminated i.pre then [] else
              if i.origin = Origin.thirdParty ∧ i.thirdparty_modified = true then
                Stage.modAssessment ::
                  (if substantial i.mod then tailStages i else [])
              else tailStages i)))

/-- A value of the `all_data` export dictionary: a string or a number. -/
inductive Value where
  | str (s : String)
  | num (q : ℚ)
deriving DecidableEq, Repr

/-- The `sub_mod_assessment` dictionary (lines 291–296): the five group
averages and the overall score, saved only when the Step 3a block ran (and,
because of the `st.stop()` at line 286, only reached when it found the
modification substantial). -/
def sub_mod_assessment (i : Inputs) : List (String × Value) :=
  if modPerformed i then
    [("intended_purpose_avg", Value.num (intended_purpose_avg i.mod)),
     ("architectural_avg", Value.num (architectural_avg i.mod)),
     ("data_avg", Value.num (data_avg i.mod)),
     ("performance_avg", Value.num (performance_avg i.mod)),
     ("future_deployment_avg", Value.num (future_deployment_avg i.mod)),
     ("overall_score", Value.num (overall_score i.mod))]
  else []

/-- The `pre_answers` dictionary as recorded ("Yes"/"No" strings). -/
def pre_answers (p : PreAnswers) : List (String × Value) :=
  [("params_below", Value.str (ynLabel p.params_below)),
   ("trained_specialized", Value.str (ynLabel p.trained_specialized)),
   ("single_task", Value.str (ynLabel p.single_task)),
   ("adaptability", Value.str (ynLabel p.adaptability))]

/-- The Step 4 `answers` dictionary as recorded (option label strings). -/
def detailed_answers (d : DetailedAnswers) : List (String × Value) :=
  [("params", Value.str (ynLabel d.params)),
   ("training", Value.str (trainingLabel d.training)),
   ("tasks", Value.str (trainingLabel d.tasks)),
   ("generative", Value.str (trainingLabel d.generative)),
   ("modality", Value.str (modalityLabel d.modality)),
   ("integration", Value.str (ynLabel d.integration)),
   ("use_cases", Value.str (useCasesLabel d.use_cases))]

/-- The `sys_risk_answers` dictionary: filled only inside the Step 5 block,
i.e. only when the classification is "GPAI"; otherwise it stays empty. -/
def sys_risk_answers (i : Inputs) : List (String × Value) :=
  if finalClassification i = "GPAI" then
    [("flops", Value.str (ynLabel i.sys.flops)),
     ("state_of_art", Value.str (ynLabel i.sys.state_of_art)),
     ("scalability", Value.str (ynLabel i.sys.scalability)),
     ("scaffolding", Value.str (ynLabel i.sys.scaffolding))]
  else []

/-- `st.session_state.get("manual_rationale", "")`: the borderline rationale
text area exists only when Step 4 took the borderline branch. -/
def step4ManualRationale (i : Inputs) : String :=
  if 6 ≤ detailedScore i.detailed ∧ detailedScore i.detailed < 10 then
    i.manual_rationale
  else ""

/-- `st.session_state.get("sys_rationale", "")`: the systemic rationale text
area exists only when Step 5 ran and took its borderline branch. -/
def step5SysRationale (i : Inputs) : String :=
  if finalClassification i = "GPAI" ∧ (i.sys.flops || i.sys.state_of_art) = false ∧
      (i.sys.scalability || i.sys.scaffolding) = true then
    i.sys_rationale
  else ""

/-- The `all_data` export dictionary (lines 426–451), in insertion order:
identity fields and both verdicts, then the stage-namespaced answer
dictionaries, then the rationales. -/
def all_data (i : Inputs) : List (String × Value) :=
  [("Model Name", Value.str i.model_name),
   ("Model Owner", Value.str i.model_owner),
   ("Final Classification", Value.str (finalClassification i)),
   ("Systemic Risk Classification",
     Value.str (if finalClassification i = "GPAI" then
       systemic_classification i.sys i.final_sys_decision i.sys_rationale
     else "N/A"))] ++
  (sub_mod_assessment i).map (fun kv => ("Step2_ModAssessment_" ++ kv.1, kv.2)) ++
  (pre_answers i.pre).map (fun kv => ("Step3_PreScreen_" ++ kv.1, kv.2)) ++
  (detailed_answers i.detailed).map (fun kv => ("Step4_Detailed_" ++ kv.1, kv.2)) ++
  (sys_risk_answers i).map (fun kv => ("Step5_SysRisk_" ++ kv.1, kv.2)) ++
  [("Step4_Manual_Rationale", Value.str (step4ManualRationale i)),
   ("Step5_SysRationale", Value.str (step5SysRationale i))]

/-- One whole run of the script: `none` when an `st.stop()` halts it before
the final section, otherwise the assembled `all_data` record.  The halt
points, in script order: Step 1 auto-exclusion, Step 2 unmodified third-party
model, Step 3 elimination, Step 3a non-substantial modification. -/
def runResult (i : Inputs) : Option (List (String × Value)) :=
  if i.auto_exclude then none
  else if i.origin = Origin.thirdParty ∧ i.thirdparty_modified = false then none
  else if eliminated i.pre then none
  else if i.origin = Origin.thirdParty ∧ i.thirdparty_modified = true ∧
      substantial i.mod = false then none
  else some (all_data i)

/-- The obligations block rendered in Step 5 (lines 399–417): six obligations
with systemic risk, three without, none otherwise. -/
def obligationsFor (sysClass : String) : List String :=
  if sysClass = "GPAI with systemic risk" then
    ["Provide technical documentation (Article 53(1)(a-b))",
     "Public summary of training content (Article 53(1)(d))",
     "Copyright compliance policy (Article 53(1)(c))",
     "Systemic risk assessment and mitigation",
     "Serious incident monitoring and reporting",
     "Cybersecurity protection"]
  else if sysClass = "GPAI without systemic risk" then
    ["Provide technical documentation (Article 53(1)(a-b))",
     "Public summary of training content (Article 53(1)(d))",
     "Copyright compliance policy (Article 53(1)(c))"]
  else []

/-- Obligations of a whole run: the Step 5 obligations block is only rendered
when the Step 4 classification is "GPAI". -/
def obligationsOf (classification : String) (sysClass : String) : List String :=
  if classification = "GPAI" then obligationsFor sysClass else []

/-- Pre-screening answers that are all "No": the gate passes. -/
def allNoPre : PreAnswers :=
  ⟨false, false, false, false⟩

/-- Systemic-risk answers that are all "No". -/
def allNoSys : SysRiskAnswers :=
  ⟨false, false, false, false⟩

/-- Systemic-risk answers with only `flops` = "Yes" (the hard trigger). -/
def flopsOnlySys : SysRiskAnswers :=
  ⟨true, false, false, false⟩

/-- Detailed answers all maximal: score 14. -/
def maxDetailed : DetailedAnswers :=
  ⟨true, .high, .high, .high, .high, true, .high⟩

/-- Detailed answers scoring exactly 6 (borderline band). -/
def midDetailed : DetailedAnswers :=
  ⟨true, .high, .high, .low, .low, false, .low⟩

/-- Detailed answers all minimal: score 0. -/
def lowDetailed : DetailedAnswers :=
  ⟨false, .low, .low, .low, .low, false, .low⟩

/-- The subcriterion rating 1 as a `Fin 5` index. -/
def r1 : Fin 5 := ⟨0, by omega⟩

/-- The subcriterion rating 2 as a `Fin 5` index. -/
def r2 : Fin 5 := ⟨1, by omega⟩

/-- The subcriterion rating 3 as a `Fin 5` index. -/
def r3 : Fin 5 := ⟨2, by omega⟩

/-- The subcriterion rating 4 as a `Fin 5` index. -/
def r4 : Fin 5 := ⟨3, by omega⟩

/-- The subcriterion rating 5 as a `Fin 5` index. -/
def r5 : Fin 5 := ⟨4, by omega⟩

/-- All fifteen MCDA subcriteria rated 5: overall score 5, substantial. -/
def ratingsAll5 : ModAnswers :=
  ⟨r5, r5, r5, r5, r5, r5, r5, r5, r5, r5, r5, r5, r5, r5, r5⟩

/-- Ratings whose exact weighted score is exactly 3.5 but whose binary64
computed score is the double 3.5000000000000004: intended purpose 1/1/1,
architectural 5/5, data 5/4/4/4, performance 4/4/4, future deployment 5/5/5. -/
def ratingsFloatBug : ModAnswers :=
  ⟨r1, r1, r1, r5, r5, r5, r4, r4, r4, r4, r4, r4, r5, r5, r5⟩

/-- An internally developed run with maximal detailed answers. -/
def exampleInternalGPAI : Inputs :=
  ⟨false, .internal, false, allNoPre, ratingsAll5, maxDetailed, .gpai, "",
    flopsOnlySys, .withRisk, "", "model-a", "owner-a"⟩

/-- An internally developed run landing in the borderline band (score 6). -/
def exampleBorderline : Inputs :=
  ⟨false, .internal, false, allNoPre, ratingsAll5, midDetailed, .gpai,
    "rationale text", allNoSys, .withRisk, "", "model-b", "owner-b"⟩

/-- An internally developed run with score 0 (Not GPAI). -/
def exampleNotGPAI : Inputs :=
  ⟨false, .internal, false, allNoPre, ratingsAll5, lowDetailed, .gpai, "",
    allNoSys, .withRisk, "", "model-c", "owner-c"⟩

/-- A third-party, substantially modified run with maximal detailed answers. -/
def exampleThirdPartyGPAI : Inputs :=
  ⟨false, .thirdParty, true, allNoPre, ratingsAll5, maxDetailed, .gpai, "",
    flopsOnlySys, .withRisk, "", "model-d", "owner-d"⟩

/-- A third-party, substantially modified run with score 0 (Not GPAI). -/
def exampleThirdPartyNotGPAI : Inputs :=
  ⟨false, .thirdParty, true, allNoPre, ratingsAll5, lowDetailed, .gpai, "",
    allNoSys, .withRisk, "", "model-e", "owner-e"⟩

theorem opt3_points_le (o : Opt3) : o.points ≤ 2 := by
  cases o <;> simp [Opt3.points]

theorem binPoints_le (b : Bool) : binPoints b ≤ 2 := by
  cases b <;> simp [binPoints]

theorem detailedScore_le (d : DetailedAnswers) : detailedScore d ≤ 14 := by
  have h1 := binPoints_le d.params
  have h2 := opt3_points_le d.training
  have h3 := opt3_points_le d.tasks
  have h4 := opt3_points_le d.generative
  have h5 := opt3_points_le d.modality
  have h6 := binPoints_le d.integration
  have h7 := opt3_points_le d.use_cases
  unfold detailedScore
  omega

theorem systemicRisk_mem_trace {i : Inputs}
    (h : Stage.systemicRisk ∈ pipelineTrace i) :
    finalClassification i = "GPAI" := by
  simp only [pipelineTrace, tailStages] at h
  split_ifs at h <;> simp_all

/-- Claim C1: over all assignments of the seven detailed answers, the score
lies in [0,14] (scores are naturals, so 0 is a lower bound by type), score ≥ 10
classifies as "GPAI", score in [6,10) classifies as the manual borderline
decision, and score < 6 classifies as "Not GPAI" with the systemic-risk stage
never executing; at the boundaries, score 10 gives "GPAI", scores 9 and 6 give
the borderline decision, and score 5 gives "Not GPAI". -/
theorem C1_detailed_thresholds (i : Inputs) :
    detailedScore i.detailed ≤ 14 ∧
    (10 ≤ detailedScore i.detailed → finalClassification i = "GPAI") ∧
    (6 ≤ detailedScore i.detailed → detailedScore i.detailed < 10 →
      finalClassification i = i.borderline.label) ∧
    (detailedScore i.detailed < 6 →
      finalClassification i = "Not GPAI" ∧
        Stage.systemicRisk ∉ pipelineTrace i) ∧
    detailedClassification 10 i.borderline i.manual_rationale = "GPAI" ∧
    detailedClassification 9 i.borderline i.manual_rationale =
      i.borderline.label ∧
    detailedClassification 6 i.borderline i.manual_rationale =
      i.borderline.label ∧
    detailedClassification 5 i.borderline i.manual_rationale = "Not GPAI" := by
  refine ⟨detailedScore_le i.detailed, ?_, ?_, ?_, rfl, rfl, rfl, rfl⟩
  · intro h
    unfold finalClassification detailedClassification
    rw [if_pos h]
  · intro h6 h10
    unfold finalClassification detailedClassification finalizeBorderline
    rw [if_neg (by omega), if_pos h6]
  · intro h
    have hcl : finalClassification i = "Not GPAI" := by
      unfold finalClassification detailedClassification
      rw [if_neg (by omega), if_neg (by omega)]
    refine ⟨hcl, fun hm => ?_⟩
    have := systemicRisk_mem_trace hm
    rw [hcl] at this
    exact absurd this (by decide)

/-- Witness for C1 at concrete runs covering the three threshold bands. -/
theorem C1_detailed_thresholds_witness :
    finalClassification exampleInternalGPAI = "GPAI" ∧
    finalClassification exampleBorderline = exampleBorderline.borderline.label ∧
    finalClassification exampleNotGPAI = "Not GPAI" ∧
    Stage.systemicRisk ∉ pipelineTrace exampleNotGPAI :=
  ⟨(C1_detailed_thresholds exampleInternalGPAI).2.1 (by decide),
   (C1_detailed_thresholds exampleBorderline).2.2.1 (by decide) (by decide),
   ((C1_detailed_thresholds exampleNotGPAI).2.2.2.1 (by decide)).1,
   ((C1_detailed_thresholds exampleNotGPAI).2.2.2.1 (by decide)).2⟩

/-- Claim C2: the systemic-risk rule — `flops` or `state_of_art` is a hard
trigger to "GPAI with systemic risk"; otherwise `scalability` or `scaffolding`
defers to the manual decision; otherwise "GPAI without systemic risk". -/
theorem C2_systemic_rule (s : SysRiskAnswers) (d : SysDecision) (r : String) :
    ((s.flops = true ∨ s.state_of_art = true) →
      systemic_classification s d r = "GPAI with systemic risk") ∧
    (s.flops = false → s.state_of_art = false →
      (s.scalability = true ∨ s.scaffolding = true) →
      systemic_classification s d r = d.label) ∧
    (s.flops = false → s.state_of_art = false → s.scalability = false →
      s.scaffolding = false →
      systemic_classification s d r = "GPAI without systemic risk") := by
  obtain ⟨f, soa, sc, sf⟩ := s
  cases f <;> cases soa <;> cases sc <;> cases sf <;>
    simp [systemic_classification]

/-- Witness for C2 at concrete answers covering all three branches. -/
theorem C2_systemic_rule_witness :
    systemic_classification flopsOnlySys SysDecision.withoutRisk ("") =
      "GPAI with systemic risk" ∧
    systemic_classification ⟨false, false, true, false⟩
        SysDecision.withoutRisk ("") = SysDecision.withoutRisk.label ∧
    systemic_classification allNoSys SysDecision.withRisk ("") =
      "GPAI without systemic risk" :=
  ⟨(C2_systemic_rule flopsOnlySys SysDecision.withoutRisk ("")).1
      (Or.inl rfl),
   (C2_systemic_rule ⟨false, false, true, false⟩
      SysDecision.withoutRisk ("")).2.1 rfl rfl (Or.inl rfl),
   (C2_systemic_rule allNoSys SysDecision.withRisk ("")).2.2
      rfl rfl rfl rfl⟩

/-- Claim C3: the pre-screening elimination condition is exactly
`(params_below ∧ trained_specialized) ∨ single_task ∨ no_adaptability`; the
conjunction binds only the first pair (checked by the one-Yes probes). -/
theorem C3_elimination_formula (p : PreAnswers) :
    (eliminated p = true ↔
      ((p.params_below = true ∧ p.trained_specialized = true) ∨
        p.single_task = true ∨ p.adaptability = true)) ∧
    eliminated ⟨true, false, false, false⟩ = false ∧
    eliminated ⟨false, true, false, false⟩ = false ∧
    eliminated ⟨false, false, true, false⟩ = true ∧
    eliminated ⟨false, false, false, true⟩ = true := by
  obtain ⟨a, b, c, d⟩ := p
  cases a <;> cases b <;> cases c <;> cases d <;> simp [eliminated]

theorem overall_score_ratingsAll5 : overall_score ratingsAll5 = 5 := by
  norm_num [overall_score, intended_purpose_avg, architectural_avg, data_avg,
    performance_avg, future_deployment_avg, rate, ratingsAll5, r5]

theorem substantial_ratingsAll5 : substantial ratingsAll5 = true := by
  unfold substantial
  rw [decide_eq_true_eq, overall_score_ratingsAll5]
  norm_num

/-- Round a rational to the nearest integer, ties to even (the rounding mode
of IEEE-754 binary64 arithmetic). -/
def rne (x : ℚ) : ℤ :=
  if x - ⌊x⌋ < 1 / 2 then ⌊x⌋
  else if 1 / 2 < x - ⌊x⌋ then ⌊x⌋ + 1
  else if ⌊x⌋ % 2 = 0 then ⌊x⌋ else ⌊x⌋ + 1

/-- The IEEE-754 binary64 value nearest a rational: a 53-bit significand,
round to nearest with ties to even.  Exponents are unbounded, which agrees
with binary64 on the normal range; every value of the Step 3a computation
(weights, averages, products, partial sums) lies well inside that range. -/
def fl (q : ℚ) : ℚ :=
  if q = 0 then 0
  else if 0 < q then
    (rne (q * 2 ^ ((52 : ℤ) - Int.log 2 q)) : ℚ) * 2 ^ (Int.log 2 q - (52 : ℤ))
  else
    -((rne (-q * 2 ^ ((52 : ℤ) - Int.log 2 (-q))) : ℚ) *
      2 ^ (Int.log 2 (-q) - (52 : ℤ)))

/-- Python float addition: the exact sum, rounded to binary64. -/
def fadd (a b : ℚ) : ℚ :=
  fl (a + b)

/-- Python float multiplication: the exact product, rounded to binary64. -/
def fmul (a b : ℚ) : ℚ :=
  fl (a * b)

/-- Python float (true) division: the exact quotient, rounded to binary64. -/
def fdiv (a b : ℚ) : ℚ :=
  fl (a / b)

/-- `intended_purpose_avg` as the program computes it: `sum(...) / len(...)`
divides the exact integer sum of the ratings by 3 and rounds to binary64. -/
def intended_purpose_avg_fl (m : ModAnswers) : ℚ :=
  fdiv (rate m.new_use_case + rate m.stakeholder_variation +
    rate m.regulatory_regime_shift) 3

/-- `architectural_avg` as the program computes it (sum of 2 ratings / 2). -/
def architectural_avg_fl (m : ModAnswers) : ℚ :=
  fdiv (rate m.nature_of_change + rate m.impact_on_model_structure) 2

/-- `data_avg` as the program computes it (sum of 4 ratings / 4). -/
def data_avg_fl (m : ModAnswers) : ℚ :=
  fdiv (rate m.data_volume_adjustment + rate m.data_diversity +
    rate m.data_quality + rate m.retraining_impact) 4

/-- `performance_avg` as the program computes it (sum of 3 ratings / 3). -/
def performance_avg_fl (m : ModAnswers) : ℚ :=
  fdiv (rate m.quantitative_performance + rate m.qualitative_risk +
    rate m.adversarial_testing) 3

/-- `future_deployment_avg` as the program computes it (sum of 3 ratings / 3). -/
def future_deployment_avg_fl (m : ModAnswers) : ℚ :=
  fdiv (rate m.integration_context + rate m.end_user_experience +
    rate m.regulatory_compliance) 3

/-- `overall_score` as the program computes it (lines 276–280), in binary64:
the weight literals `0.30`, `0.25`, `0.20`, `0.15`, `0.10` are the doubles
nearest those decimals, and each product and left-to-right partial sum is
rounded. -/
def overall_score_fl (m : ModAnswers) : ℚ :=
  fadd (fadd (fadd (fadd (fmul (fl (3 / 10)) (intended_purpose_avg_fl m))
    (fmul (fl (1 / 4)) (architectural_avg_fl m)))
    (fmul (fl (1 / 5)) (data_avg_fl m)))
    (fmul (fl (3 / 20)) (performance_avg_fl m)))
    (fmul (fl (1 / 10)) (future_deployment_avg_fl m))

/-- The Step 3a gate as the program executes it (line 284): the computed
binary64 score is compared with 3.5, which is exactly representable. -/
def modOutcome_fl (m : ModAnswers) : ModOutcome :=
  if overall_score_fl m ≤ 7 / 2 then ModOutcome.minorHalt
  else ModOutcome.substantialContinue

/-- Whether the program finds the modification substantial: the computed
binary64 score strictly exceeds 3.5. -/
def substantial_fl (m : ModAnswers) : Bool :=
  decide ((7 : ℚ) / 2 < overall_score_fl m)

theorem int_log_eq {q : ℚ} {e : ℤ} (hq : 0 < q) (h1 : (2 : ℚ) ^ e ≤ q)
    (h2 : q < 2 ^ (e + 1)) : Int.log 2 q = e := by
  have hb : (1 : ℕ) < 2 := by norm_num
  have hle : e ≤ Int.log 2 q := by
    rw [← Int.zpow_le_iff_le_log hb hq]
    exact_mod_cast h1
  have hlt : Int.log 2 q < e + 1 := by
    rw [← Int.lt_zpow_iff_log_lt hb hq]
    exact_mod_cast h2
  omega

theorem rne_low {x : ℚ} {n : ℤ} (h1 : (n : ℚ) ≤ x) (h2 : x < n + 1 / 2) :
    rne x = n := by
  have hf : ⌊x⌋ = n := Int.floor_eq_iff.mpr ⟨h1, by linarith⟩
  unfold rne
  rw [hf, if_pos (by linarith)]

theorem rne_high {x : ℚ} {n : ℤ} (h1 : (n : ℚ) + 1 / 2 < x) (h2 : x < n + 1) :
    rne x = n + 1 := by
  have hf : ⌊x⌋ = n := Int.floor_eq_iff.mpr ⟨by linarith, by linarith⟩
  unfold rne
  rw [hf, if_neg (by linarith), if_pos (by linarith)]

theorem rne_tie {x : ℚ} {n : ℤ} (h : x = n + 1 / 2) (ho : n % 2 = 1) :
    rne x = n + 1 := by
  have hf : ⌊x⌋ = n := Int.floor_eq_iff.mpr ⟨by rw [h]; linarith, by rw [h]; linarith⟩
  unfold rne
  rw [hf, if_neg (by rw [h]; linarith), if_neg (by rw [h]; linarith),
    if_neg (by omega)]

theorem fl_eq {q v : ℚ} (e n : ℤ) (hq : 0 < q) (h1 : (2 : ℚ) ^ e ≤ q)
    (h2 : q < 2 ^ (e + 1)) (hr : rne (q * 2 ^ ((52 : ℤ) - e)) = n)
    (hv : (n : ℚ) * 2 ^ (e - (52 : ℤ)) = v) : fl q = v := by
  unfold fl
  rw [if_neg hq.ne', if_pos hq, int_log_eq hq h1 h2, hr, hv]

theorem fl_eq_low (q v : ℚ) (e n : ℤ) (hq : 0 < q) (h1 : (2 : ℚ) ^ e ≤ q)
    (h2 : q < 2 ^ (e + 1)) (hn1 : (n : ℚ) ≤ q * 2 ^ ((52 : ℤ) - e))
    (hn2 : q * 2 ^ ((52 : ℤ) - e) < n + 1 / 2)
    (hv : (n : ℚ) * 2 ^ (e - (52 : ℤ)) = v) : fl q = v :=
  fl_eq e n hq h1 h2 (rne_low hn1 hn2) hv

theorem fl_eq_high (q v : ℚ) (e n : ℤ) (hq : 0 < q) (h1 : (2 : ℚ) ^ e ≤ q)
    (h2 : q < 2 ^ (e + 1)) (hn1 : (n : ℚ) + 1 / 2 < q * 2 ^ ((52 : ℤ) - e))
    (hn2 : q * 2 ^ ((52 : ℤ) - e) < n + 1)
    (hv : ((n : ℚ) + 1) * 2 ^ (e - (52 : ℤ)) = v) : fl q = v :=
  fl_eq e (n + 1) hq h1 h2 (rne_high hn1 hn2) (by push_cast; exact hv)

theorem fl_eq_tie (q v : ℚ) (e n : ℤ) (hq : 0 < q) (h1 : (2 : ℚ) ^ e ≤ q)
    (h2 : q < 2 ^ (e + 1)) (hn : q * 2 ^ ((52 : ℤ) - e) = n + 1 / 2)
    (ho : n % 2 = 1)
    (hv : ((n : ℚ) + 1) * 2 ^ (e - (52 : ℤ)) = v) : fl q = v :=
  fl_eq e (n + 1) hq h1 h2 (rne_tie hn ho) (by push_cast; exact hv)

theorem overall_score_fl_ratingsFloatBug :
    overall_score_fl ratingsFloatBug = 7881299347898369 / 2 ^ 51 := by
  have hipa : intended_purpose_avg_fl ratingsFloatBug = 1 := by
    have ha : intended_purpose_avg_fl ratingsFloatBug = fl 1 := by
      norm_num [intended_purpose_avg_fl, fdiv, ratingsFloatBug, rate, r1]
    rw [ha]
    exact fl_eq_low 1 1 0 4503599627370496 (by norm_num) (by norm_num)
      (by norm_num) (by norm_num) (by norm_num) (by norm_num)
  have haa : architectural_avg_fl ratingsFloatBug = 5 := by
    have ha : architectural_avg_fl ratingsFloatBug = fl 5 := by
      norm_num [architectural_avg_fl, fdiv, ratingsFloatBug, rate, r5]
    rw [ha]
    exact fl_eq_low 5 5 2 5629499534213120 (by norm_num) (by norm_num)
      (by norm_num) (by norm_num) (by norm_num) (by norm_num)
  have hda : data_avg_fl ratingsFloatBug = 17 / 4 := by
    have ha : data_avg_fl ratingsFloatBug = fl (17 / 4) := by
      norm_num [data_avg_fl, fdiv, ratingsFloatBug, rate, r4, r5]
    rw [ha]
    exact fl_eq_low (17 / 4) (17 / 4) 2 4785074604081152 (by norm_num)
      (by norm_num) (by norm_num) (by norm_num) (by norm_num) (by norm_num)
  have hpa : performance_avg_fl ratingsFloatBug = 4 := by
    have ha : performance_avg_fl ratingsFloatBug = fl 4 := by
      norm_num [performance_avg_fl, fdiv, ratingsFloatBug, rate, r4]
    rw [ha]
    exact fl_eq_low 4 4 2 4503599627370496 (by norm_num) (by norm_num)
      (by norm_num) (by norm_num) (by norm_num) (by norm_num)
  have hfda : future_deployment_avg_fl ratingsFloatBug = 5 := by
    have ha : future_deployment_avg_fl ratingsFloatBug = fl 5 := by
      norm_num [future_deployment_avg_fl, fdiv, ratingsFloatBug, rate, r5]
    rw [ha]
    exact fl_eq_low 5 5 2 5629499534213120 (by norm_num) (by norm_num)
      (by norm_num) (by norm_num) (by norm_num) (by norm_num)
  have hw30 : fl (3 / 10) = 5404319552844595 / 2 ^ 54 :=
    fl_eq_low (3 / 10) (5404319552844595 / 2 ^ 54) (-2) 5404319552844595
      (by norm_num) (by norm_num) (by norm_num) (by norm_num) (by norm_num)
      (by norm_num)
  have hw25 : fl (1 / 4) = 1 / 4 :=
    fl_eq_low (1 / 4) (1 / 4) (-2) 4503599627370496 (by norm_num) (by norm_num)
      (by norm_num) (by norm_num) (by norm_num) (by norm_num)
  have hw20 : fl (1 / 5) = 3602879701896397 / 2 ^ 54 :=
    fl_eq_high (1 / 5) (3602879701896397 / 2 ^ 54) (-3) 7205759403792793
      (by norm_num) (by norm_num) (by norm_num) (by norm_num) (by norm_num)
      (by norm_num)
  have hw15 : fl (3 / 20) = 5404319552844595 / 2 ^ 55 :=
    fl_eq_low (3 / 20) (5404319552844595 / 2 ^ 55) (-3) 5404319552844595
      (by norm_num) (by norm_num) (by norm_num) (by norm_num) (by norm_num)
      (by norm_num)
  have hw10 : fl (1 / 10) = 3602879701896397 / 2 ^ 55 :=
    fl_eq_high (1 / 10) (3602879701896397 / 2 ^ 55) (-4) 7205759403792793
      (by norm_num) (by norm_num) (by norm_num) (by norm_num) (by norm_num)
      (by norm_num)
  have ht1 : fmul (5404319552844595 / 2 ^ 54 : ℚ) 1 = 5404319552844595 / 2 ^ 54 := by
    have ha : (5404319552844595 / 2 ^ 54 : ℚ) * 1 = 5404319552844595 / 2 ^ 54 := by
      norm_num
    unfold fmul
    rw [ha]
    exact fl_eq_low (5404319552844595 / 2 ^ 54) (5404319552844595 / 2 ^ 54) (-2)
      5404319552844595 (by norm_num) (by norm_num) (by norm_num) (by norm_num)
      (by norm_num) (by norm_num)
  have ht2 : fmul (1 / 4 : ℚ) 5 = 5 / 4 := by
    have ha : (1 / 4 : ℚ) * 5 = 5 / 4 := by norm_num
    unfold fmul
    rw [ha]
    exact fl_eq_low (5 / 4) (5 / 4) 0 5629499534213120 (by norm_num)
      (by norm_num) (by norm_num) (by norm_num) (by norm_num) (by norm_num)
  have ht3 : fmul (3602879701896397 / 2 ^ 54 : ℚ) (17 / 4) =
      1914029841632461 / 2 ^ 51 := by
    have ha : (3602879701896397 / 2 ^ 54 : ℚ) * (17 / 4) =
        61248954932238749 / 2 ^ 56 := by norm_num
    unfold fmul
    rw [ha]
    exact fl_eq_high (61248954932238749 / 2 ^ 56) (1914029841632461 / 2 ^ 51)
      (-1) 7656119366529843 (by norm_num) (by norm_num) (by norm_num)
      (by norm_num) (by norm_num) (by norm_num)
  have ht4 : fmul (5404319552844595 / 2 ^ 55 : ℚ) 4 = 5404319552844595 / 2 ^ 53 := by
    have ha : (5404319552844595 / 2 ^ 55 : ℚ) * 4 = 5404319552844595 / 2 ^ 53 := by
      norm_num
    unfold fmul
    rw [ha]
    exact fl_eq_low (5404319552844595 / 2 ^ 53) (5404319552844595 / 2 ^ 53) (-1)
      5404319552844595 (by norm_num) (by norm_num) (by norm_num) (by norm_num)
      (by norm_num) (by norm_num)
  have ht5 : fmul (3602879701896397 / 2 ^ 55 : ℚ) 5 = 1 / 2 := by
    have ha : (3602879701896397 / 2 ^ 55 : ℚ) * 5 = 18014398509481985 / 2 ^ 55 := by
      norm_num
    unfold fmul
    rw [ha]
    exact fl_eq_low (18014398509481985 / 2 ^ 55) (1 / 2) (-1) 4503599627370496
      (by norm_num) (by norm_num) (by norm_num) (by norm_num) (by norm_num)
      (by norm_num)
  have hs1 : fadd (5404319552844595 / 2 ^ 54 : ℚ) (5 / 4) =
      6980579422424269 / 2 ^ 52 := by
    have ha : (5404319552844595 / 2 ^ 54 : ℚ) + 5 / 4 =
        27922317689697075 / 2 ^ 54 := by norm_num
    unfold fadd
    rw [ha]
    exact fl_eq_high (27922317689697075 / 2 ^ 54) (6980579422424269 / 2 ^ 52) 0
      6980579422424268 (by norm_num) (by norm_num) (by norm_num) (by norm_num)
      (by norm_num) (by norm_num)
  have hs2 : fadd (6980579422424269 / 2 ^ 52 : ℚ) (1914029841632461 / 2 ^ 51) =
      5404319552844596 / 2 ^ 51 := by
    have ha : (6980579422424269 / 2 ^ 52 : ℚ) + 1914029841632461 / 2 ^ 51 =
        10808639105689191 / 2 ^ 52 := by norm_num
    unfold fadd
    rw [ha]
    exact fl_eq_tie (10808639105689191 / 2 ^ 52) (5404319552844596 / 2 ^ 51) 1
      5404319552844595 (by norm_num) (by norm_num) (by norm_num) (by norm_num)
      (by norm_num) (by norm_num)
  have hs3 : fadd (5404319552844596 / 2 ^ 51 : ℚ) (5404319552844595 / 2 ^ 53) =
      6755399441055745 / 2 ^ 51 := by
    have ha : (5404319552844596 / 2 ^ 51 : ℚ) + 5404319552844595 / 2 ^ 53 =
        27021597764222979 / 2 ^ 53 := by norm_num
    unfold fadd
    rw [ha]
    exact fl_eq_high (27021597764222979 / 2 ^ 53) (6755399441055745 / 2 ^ 51) 1
      6755399441055744 (by norm_num) (by norm_num) (by norm_num) (by norm_num)
      (by norm_num) (by norm_num)
  have hs4 : fadd (6755399441055745 / 2 ^ 51 : ℚ) (1 / 2) =
      7881299347898369 / 2 ^ 51 := by
    have ha : (6755399441055745 / 2 ^ 51 : ℚ) + 1 / 2 =
        7881299347898369 / 2 ^ 51 := by norm_num
    unfold fadd
    rw [ha]
    exact fl_eq_low (7881299347898369 / 2 ^ 51) (7881299347898369 / 2 ^ 51) 1
      7881299347898369 (by norm_num) (by norm_num) (by norm_num) (by norm_num)
      (by norm_num) (by norm_num)
  unfold overall_score_fl
  rw [hipa, haa, hda, hpa, hfda, hw30, hw25, hw20, hw15, hw10,
    ht1, ht2, ht3, ht4, ht5, hs1, hs2, hs3, hs4]

/-- Claim C4 (code bug at the 3.5 boundary): at the ratings intended purpose
1/1/1, architectural 5/5, data 5/4/4/4, performance 4/4/4, future deployment
5/5/5 the exact weighted score is exactly 3.5, so by the claim (and by the
app's own guidance that a score strictly above 3.5 indicates substantial
modifications) the run must halt as a minor modification — as the exact-
arithmetic gate indeed does; but the program's binary64 evaluation of lines
276–280 yields the double 3.5000000000000004 (= 7881299347898369/2^51), which
is strictly greater than 3.5, so the `overall_score <= 3.5` test at line 284
fails and the program continues as substantial. -/
theorem C4_float_boundary_bug :
    overall_score ratingsFloatBug = 7 / 2 ∧
    modOutcome ratingsFloatBug = ModOutcome.minorHalt ∧
    substantial ratingsFloatBug = false ∧
    overall_score_fl ratingsFloatBug = 7881299347898369 / 2 ^ 51 ∧
    (7 : ℚ) / 2 < overall_score_fl ratingsFloatBug ∧
    modOutcome_fl ratingsFloatBug = ModOutcome.substantialContinue ∧
    substantial_fl ratingsFloatBug = true := by
  have hexact : overall_score ratingsFloatBug = 7 / 2 := by
    norm_num [overall_score, intended_purpose_avg, architectural_avg, data_avg,
      performance_avg, future_deployment_avg, rate, ratingsFloatBug, r1, r4, r5]
  have hfl := overall_score_fl_ratingsFloatBug
  have hgt : (7 : ℚ) / 2 < overall_score_fl ratingsFloatBug := by
    rw [hfl]
    norm_num
  refine ⟨hexact, ?_, ?_, hfl, hgt, ?_, ?_⟩
  · unfold modOutcome
    rw [if_pos (le_of_eq hexact)]
  · unfold substantial
    rw [hexact]
    simp
  · unfold modOutcome_fl
    rw [if_neg (by rw [hfl]; norm_num)]
  · unfold substantial_fl
    rw [decide_eq_true_eq]
    exact hgt

/-- Counterexample to claim C5: in a third-party, modified run the script
evaluates Step 3 (pre-screening) strictly before Step 3a (modification
assessment) — the trace places `preScreening` at index 2 and `modAssessment`
at index 3, so pre-screening is not preceded by the modification assessment. -/
theorem C5_counterexample :
    exampleThirdPartyGPAI.origin = Origin.thirdParty ∧
    exampleThirdPartyGPAI.thirdparty_modified = true ∧
    pipelineTrace exampleThirdPartyGPAI =
      [Stage.exclusionCheck, Stage.providerGate, Stage.preScreening,
        Stage.modAssessment, Stage.detailedAssessment, Stage.systemicRisk,
        Stage.finalExport] ∧
    (pipelineTrace exampleThirdPartyGPAI).indexOf Stage.preScreening = 2 ∧
    (pipelineTrace exampleThirdPartyGPAI).indexOf Stage.modAssessment = 3 := by
  have hs : substantial exampleThirdPartyGPAI.mod = true := substantial_ratingsAll5
  have ht : pipelineTrace exampleThirdPartyGPAI =
      [Stage.exclusionCheck, Stage.providerGate, Stage.preScreening,
        Stage.modAssessment, Stage.detailedAssessment, Stage.systemicRisk,
        Stage.finalExport] := by
    have hc : finalClassification exampleThirdPartyGPAI = "GPAI" := by decide
    simp only [pipelineTrace, tailStages]
    rw [if_neg (by decide), if_neg (by decide), if_neg (by decide),
      if_pos (by decide), if_pos hs, if_pos hc]
    rfl
  refine ⟨rfl, rfl, ht, ?_, ?_⟩ <;> rw [ht] <;> decide

/-- Claim C5 as amended: for a third-party, modified run that passes the
earlier gates, pre-screening runs directly after the provider gate and before
the modification assessment; the modification assessment runs only after
pre-screening does not eliminate the model, and only when it finds the
modification substantial does the run proceed to the detailed assessment. -/
theorem C5_prescreening_precedes_mod (i : Inputs) (hA : i.auto_exclude = false)
    (hO : i.origin = Origin.thirdParty) (hM : i.thirdparty_modified = true)
    (hE : eliminated i.pre = false) :
    pipelineTrace i =
      Stage.exclusionCheck :: Stage.providerGate :: Stage.preScreening ::
        Stage.modAssessment ::
        (if substantial i.mod then tailStages i else []) := by
  simp [pipelineTrace, hA, hO, hM, hE]

/-- Witness for the amended C5 at a concrete third-party modified run. -/
theorem C5_prescreening_precedes_mod_witness :
    pipelineTrace exampleThirdPartyGPAI =
      Stage.exclusionCheck :: Stage.providerGate :: Stage.preScreening ::
        Stage.modAssessment ::
        (if substantial exampleThirdPartyGPAI.mod then
          tailStages exampleThirdPartyGPAI
        else []) :=
  C5_prescreening_precedes_mod exampleThirdPartyGPAI rfl rfl rfl rfl

/-- Counterexample to claim C7: a borderline detailed score (7) with an empty
rationale still produces the classification label "GPAI", and the borderline
systemic branch with an empty rationale still produces the manual decision's
label — the code never leaves a borderline stage pending. -/
theorem C7_counterexample :
    detailedClassification 7 ManualGPAI.gpai ("") = "GPAI" ∧
    systemic_classification ⟨false, false, true, false⟩
      SysDecision.withoutRisk ("") = "GPAI without systemic risk" := by
  constructor <;> rfl

/-- Claim C7 as amended: at a borderline stage the code finalizes the verdict
from the manual radio decision (which always carries a value) regardless of
the rationale — for every rationale, including the empty string, a detailed
score in [6,10) yields the manual decision's label and the systemic
scalability/scaffolding branch yields the manual systemic decision's label;
no pending state exists. -/
theorem C7_borderline_always_finalized (score : Nat) (m : ManualGPAI)
    (s : SysRiskAnswers) (d : SysDecision) (r : String)
    (h6 : 6 ≤ score) (h10 : score < 10) (hf : s.flops = false)
    (hsoa : s.state_of_art = false)
    (hb : s.scalability = true ∨ s.scaffolding = true) :
    detailedClassification score m r = m.label ∧
    systemic_classification s d r = d.label := by
  constructor
  · unfold detailedClassification finalizeBorderline
    rw [if_neg (by omega), if_pos h6]
  · unfold systemic_classification
    rw [if_neg (by simp [hf, hsoa]),
      if_pos (by rcases hb with h | h <;> simp [h])]

/-- Witness for the amended C7 with empty rationales. -/
theorem C7_borderline_always_finalized_witness :
    detailedClassification 7 ManualGPAI.gpai ("") = ManualGPAI.gpai.label ∧
    systemic_classification ⟨false, false, true, false⟩
      SysDecision.withoutRisk ("") = SysDecision.withoutRisk.label :=
  C7_borderline_always_finalized 7 ManualGPAI.gpai ⟨false, false, true, false⟩
    SysDecision.withoutRisk ("") (by omega) (by omega) rfl rfl (Or.inl rfl)

/-- Claim C8: the obligations mapping is a pure function of the final verdict
— "GPAI with systemic risk" maps to the six-item set, "GPAI without systemic
risk" to the three-item strict subset, and any non-GPAI classification or any
other systemic label maps to the empty set. -/
theorem C8_obligations_map :
    obligationsFor ("GPAI with systemic risk") =
      ["Provide technical documentation (Article 53(1)(a-b))",
       "Public summary of training content (Article 53(1)(d))",
       "Copyright compliance policy (Article 53(1)(c))",
       "Systemic risk assessment and mitigation",
       "Serious incident monitoring and reporting",
       "Cybersecurity protection"] ∧
    obligationsFor ("GPAI without systemic risk") =
      ["Provide technical documentation (Article 53(1)(a-b))",
       "Public summary of training content (Article 53(1)(d))",
       "Copyright compliance policy (Article 53(1)(c))"] ∧
    (obligationsFor ("GPAI without systemic risk")).toFinset ⊂
      (obligationsFor ("GPAI with systemic risk")).toFinset ∧
    (∀ c s, c ≠ "GPAI" → obligationsOf c s = []) ∧
    (∀ s, s ≠ "GPAI with systemic risk" → s ≠ "GPAI without systemic risk" →
      obligationsFor s = []) := by
  refine ⟨rfl, rfl, by decide, ?_, ?_⟩
  · intro c s hc
    unfold obligationsOf
    rw [if_neg hc]
  · intro s h1 h2
    unfold obligationsFor
    rw [if_neg h1, if_neg h2]

/-- Witness for C8: non-GPAI and unresolved labels yield no obligations. -/
theorem C8_obligations_map_witness :
    obligationsOf ("Not GPAI") ("GPAI with systemic risk") = [] ∧
    obligationsFor ("N/A") = [] :=
  ⟨C8_obligations_map.2.2.2.1 ("Not GPAI") ("GPAI with systemic risk")
      (by decide),
   C8_obligations_map.2.2.2.2 ("N/A") (by decide) (by decide)⟩

/-- Claim C10: noninterference of the overridden inputs under the hard
trigger — any two systemic-risk stages that each answer Yes to `flops` or to
`state_of_art` classify as "GPAI with systemic risk", whatever their
`scalability` and `scaffolding` answers, manual decisions, and rationales. -/
theorem C10_hard_trigger_noninterference (s1 s2 : SysRiskAnswers)
    (d1 d2 : SysDecision) (r1 r2 : String)
    (h1 : s1.flops = true ∨ s1.state_of_art = true)
    (h2 : s2.flops = true ∨ s2.state_of_art = true) :
    systemic_classification s1 d1 r1 = "GPAI with systemic risk" ∧
    systemic_classification s2 d2 r2 = "GPAI with systemic risk" ∧
    systemic_classification s1 d1 r1 = systemic_classification s2 d2 r2 := by
  have e1 : systemic_classification s1 d1 r1 = "GPAI with systemic risk" := by
    unfold systemic_classification
    rw [if_pos (by rcases h1 with h | h <;> simp [h])]
  have e2 : systemic_classification s2 d2 r2 = "GPAI with systemic risk" := by
    unfold systemic_classification
    rw [if_pos (by rcases h2 with h | h <;> simp [h])]
  exact ⟨e1, e2, e1.trans e2.symm⟩

/-- Witness for C10 at two differing hard-triggered runs. -/
theorem C10_hard_trigger_noninterference_witness :
    systemic_classification flopsOnlySys SysDecision.withoutRisk
      ("some rationale") = "GPAI with systemic risk" ∧
    systemic_classification ⟨false, true, true, true⟩ SysDecision.withRisk
      ("") = "GPAI with systemic risk" ∧
    systemic_classification flopsOnlySys SysDecision.withoutRisk
      ("some rationale") =
      systemic_classification ⟨false, true, true, true⟩ SysDecision.withRisk
        ("") :=
  C10_hard_trigger_noninterference flopsOnlySys ⟨false, true, true, true⟩
    SysDecision.withoutRisk SysDecision.withRisk ("some rationale") ("")
    (Or.inl rfl) (Or.inr rfl)

theorem runResult_eq_some {i : Inputs} {r : List (String × Value)}
    (h : runResult i = some r) : r = all_data i := by
  unfold runResult at h
  split_ifs at h <;> simp_all

/-- Counterexample to claim C6: a completed third-party modified run's export
record carries the MCDA group averages and overall score, but no column for
any individual subcriterion rating — e.g. no `Step2_ModAssessment_new_use_case`
key exists, even though `new_use_case` was answered during the assessment. -/
theorem C6_counterexample :
    runResult exampleThirdPartyGPAI = some (all_data exampleThirdPartyGPAI) ∧
    modPerformed exampleThirdPartyGPAI = true ∧
    "Step2_ModAssessment_overall_score" ∈
      (all_data exampleThirdPartyGPAI).map Prod.fst ∧
    "Step2_ModAssessment_new_use_case" ∉
      (all_data exampleThirdPartyGPAI).map Prod.fst ∧
    "Step2_ModAssessment_nature_of_change" ∉
      (all_data exampleThirdPartyGPAI).map Prod.fst := by
  have hs : substantial exampleThirdPartyGPAI.mod = true := substantial_ratingsAll5
  refine ⟨?_, rfl, by decide, by decide, by decide⟩
  unfold runResult
  rw [if_neg (by decide), if_neg (by decide), if_neg (by decide),
    if_neg (fun hcon => absurd (hs.symm.trans hcon.2.2) (by decide))]

/-- Claim C6 as amended: every completed run's export record contains the
model identity, the final classification, and every recorded answer of the
pre-screening, detailed, and (when reached) systemic-risk stages, namespaced
by stage; whenever the modification assessment was performed it also contains
the five MCDA group averages and the overall modification score — but not the
individual MCDA subcriterion ratings, which are dropped by the assembler. -/
theorem C6_export_record (i : Inputs) (r : List (String × Value))
    (h : runResult i = some r) :
    ("Model Name", Value.str i.model_name) ∈ r ∧
    ("Final Classification", Value.str (finalClassification i)) ∈ r ∧
    ("Step3_PreScreen_params_below",
      Value.str (ynLabel i.pre.params_below)) ∈ r ∧
    ("Step3_PreScreen_trained_specialized",
      Value.str (ynLabel i.pre.trained_specialized)) ∈ r ∧
    ("Step3_PreScreen_single_task",
      Value.str (ynLabel i.pre.single_task)) ∈ r ∧
    ("Step3_PreScreen_adaptability",
      Value.str (ynLabel i.pre.adaptability)) ∈ r ∧
    ("Step4_Detailed_params", Value.str (ynLabel i.detailed.params)) ∈ r ∧
    ("Step4_Detailed_training",
      Value.str (trainingLabel i.detailed.training)) ∈ r ∧
    ("Step4_Detailed_tasks", Value.str (trainingLabel i.detailed.tasks)) ∈ r ∧
    ("Step4_Detailed_generative",
      Value.str (trainingLabel i.detailed.generative)) ∈ r ∧
    ("Step4_Detailed_modality",
      Value.str (modalityLabel i.detailed.modality)) ∈ r ∧
    ("Step4_Detailed_integration",
      Value.str (ynLabel i.detailed.integration)) ∈ r ∧
    ("Step4_Detailed_use_cases",
      Value.str (useCasesLabel i.detailed.use_cases)) ∈ r ∧
    (finalClassification i = "GPAI" →
      ("Step5_SysRisk_flops", Value.str (ynLabel i.sys.flops)) ∈ r ∧
      ("Step5_SysRisk_state_of_art",
        Value.str (ynLabel i.sys.state_of_art)) ∈ r ∧
      ("Step5_SysRisk_scalability",
        Value.str (ynLabel i.sys.scalability)) ∈ r ∧
      ("Step5_SysRisk_scaffolding",
        Value.str (ynLabel i.sys.scaffolding)) ∈ r) ∧
    (modPerformed i = true →
      ("Step2_ModAssessment_intended_purpose_avg",
        Value.num (intended_purpose_avg i.mod)) ∈ r ∧
      ("Step2_ModAssessment_architectural_avg",
        Value.num (architectural_avg i.mod)) ∈ r ∧
      ("Step2_ModAssessment_data_avg", Value.num (data_avg i.mod)) ∈ r ∧
      ("Step2_ModAssessment_performance_avg",
        Value.num (performance_avg i.mod)) ∈ r ∧
      ("Step2_ModAssessment_future_deployment_avg",
        Value.num (future_deployment_avg i.mod)) ∈ r ∧
      ("Step2_ModAssessment_overall_score",
        Value.num (overall_score i.mod)) ∈ r) ∧
    "Step2_ModAssessment_new_use_case" ∉ r.map Prod.fst := by
  have hr : r = all_data i := runResult_eq_some h
  subst hr
  refine ⟨by simp [all_data], by simp [all_data], by simp [all_data, pre_answers],
    by simp [all_data, pre_answers], by simp [all_data, pre_answers],
    by simp [all_data, pre_answers], by simp [all_data, detailed_answers],
    by simp [all_data, detailed_answers], by simp [all_data, detailed_answers],
    by simp [all_data, detailed_answers], by simp [all_data, detailed_answers],
    by simp [all_data, detailed_answers], by simp [all_data, detailed_answers],
    ?_, ?_, ?_⟩
  · intro hG
    refine ⟨?_, ?_, ?_, ?_⟩ <;> simp [all_data, sys_risk_answers, hG]
  · intro hM
    refine ⟨?_, ?_, ?_, ?_, ?_, ?_⟩ <;> simp [all_data, sub_mod_assessment, hM]
  · rcases Bool.eq_false_or_eq_true (modPerformed i) with hM | hM <;>
      by_cases hG : finalClassification i = "GPAI" <;>
        simp [all_data, sub_mod_assessment, pre_answers, detailed_answers,
          sys_risk_answers, hM, hG]

/-- Witness for the amended C6 at a completed third-party modified run. -/
theorem C6_export_record_witness :
    ("Model Name", Value.str exampleThirdPartyGPAI.model_name) ∈
      all_data exampleThirdPartyGPAI ∧
    ("Step2_ModAssessment_overall_score",
      Value.num (overall_score exampleThirdPartyGPAI.mod)) ∈
      all_data exampleThirdPartyGPAI ∧
    "Step2_ModAssessment_new_use_case" ∉
      (all_data exampleThirdPartyGPAI).map Prod.fst := by
  have hs : substantial exampleThirdPartyGPAI.mod = true := substantial_ratingsAll5
  have hrun : runResult exampleThirdPartyGPAI =
      some (all_data exampleThirdPartyGPAI) := by
    unfold runResult
    rw [if_neg (by decide), if_neg (by decide), if_neg (by decide),
      if_neg (fun hcon => absurd (hs.symm.trans hcon.2.2) (by decide))]
  obtain ⟨h1, -, -, -, -, -, -, -, -, -, -, -, -, -, hMod, hNo⟩ :=
    C6_export_record exampleThirdPartyGPAI (all_data exampleThirdPartyGPAI) hrun
  exact ⟨h1, (hMod rfl).2.2.2.2.2, hNo⟩

/-- Whether string `p` is a prefix of string `k`, by character list. -/
def strHasPrefix (p k : String) : Bool :=
  p.data.isPrefixOf k.data

/-- Claim C9: for every completed run whose classification is not "GPAI", the
export record's "Systemic Risk Classification" field is the literal string
"N/A", the systemic-risk answer dictionary stays empty, and no key of the
record carries the `Step5_SysRisk_` prefix. -/
theorem C9_no_sysrisk_columns (i : Inputs) (r : List (String × Value))
    (h : runResult i = some r) (hne : finalClassification i ≠ "GPAI") :
    ("Systemic Risk Classification", Value.str ("N/A")) ∈ r ∧
    sys_risk_answers i = [] ∧
    ∀ k ∈ r.map Prod.fst, strHasPrefix ("Step5_SysRisk_") k = false := by
  have hr : r = all_data i := runResult_eq_some h
  subst hr
  refine ⟨?_, ?_, ?_⟩
  · simp [all_data, hne]
  · simp [sys_risk_answers, hne]
  · rcases Bool.eq_false_or_eq_true (modPerformed i) with hM | hM
    · have hkeys : (all_data i).map Prod.fst =
          ["Model Name", "Model Owner", "Final Classification",
           "Systemic Risk Classification",
           "Step2_ModAssessment_intended_purpose_avg",
           "Step2_ModAssessment_architectural_avg",
           "Step2_ModAssessment_data_avg", "Step2_ModAssessment_performance_avg",
           "Step2_ModAssessment_future_deployment_avg",
           "Step2_ModAssessment_overall_score", "Step3_PreScreen_params_below",
           "Step3_PreScreen_trained_specialized", "Step3_PreScreen_single_task",
           "Step3_PreScreen_adaptability", "Step4_Detailed_params",
           "Step4_Detailed_training", "Step4_Detailed_tasks",
           "Step4_Detailed_generative", "Step4_Detailed_modality",
           "Step4_Detailed_integration", "Step4_Detailed_use_cases",
           "Step4_Manual_Rationale", "Step5_SysRationale"] := by
        simp [all_data, sub_mod_assessment, pre_answers, detailed_answers,
          sys_risk_answers, hM, hne]
      rw [hkeys]
      decide
    · have hkeys : (all_data i).map Prod.fst =
          ["Model Name", "Model Owner", "Final Classification",
           "Systemic Risk Classification", "Step3_PreScreen_params_below",
           "Step3_PreScreen_trained_specialized", "Step3_PreScreen_single_task",
           "Step3_PreScreen_adaptability", "Step4_Detailed_params",
           "Step4_Detailed_training", "Step4_Detailed_tasks",
           "Step4_Detailed_generative", "Step4_Detailed_modality",
           "Step4_Detailed_integration", "Step4_Detailed_use_cases",
           "Step4_Manual_Rationale", "Step5_SysRationale"] := by
        simp [all_data, sub_mod_assessment, pre_answers, detailed_answers,
          sys_risk_answers, hM, hne]
      rw [hkeys]
      decide

/-- Witness for C9 at a completed third-party run classified "Not GPAI". -/
theorem C9_no_sysrisk_columns_witness :
    ("Systemic Risk Classification", Value.str ("N/A")) ∈
      all_data exampleThirdPartyNotGPAI ∧
    sys_risk_answers exampleThirdPartyNotGPAI = [] := by
  have hs : substantial exampleThirdPartyNotGPAI.mod = true :=
    substantial_ratingsAll5
  have hrun : runResult exampleThirdPartyNotGPAI =
      some (all_data exampleThirdPartyNotGPAI) := by
    unfold runResult
    rw [if_neg (by decide), if_neg (by decide), if_neg (by decide),
      if_neg (fun hcon => absurd (hs.symm.trans hcon.2.2) (by decide))]
  have hc := C9_no_sysrisk_columns exampleThirdPartyNotGPAI
    (all_data exampleThirdPartyNotGPAI) hrun (by decide)
  exact ⟨hc.1, hc.2.1⟩

end GPAI
